import Mathlib

/-!
Shallow embedding of the koe recording lifecycle controller: the recording
state machine (the state-machine module), the orchestrator event handlers
(src/orchestrator.ts) and the global hotkey service (src/hotkey-service.ts),
together with theorems about their behaviour.

Time is modelled as an explicit `now : Nat` parameter standing for the
millisecond value `Date.now()` returns at the moment the corresponding
source line executes.  Durations are `Int` because the source computes them
by subtraction of two timestamps.  JavaScript truthiness of the stored
timestamp (`if (!this._recordingStartTime) return 0`) is modelled
faithfully: both `null` (`none`) and the number `0` are falsy.
-/

namespace Koe

/-- The five lifecycle states (`RecordingState` in the source). -/
inductive RecordingState
  | idle
  | recording
  | processing
  | inserting
  | error
deriving DecidableEq

/-- The six triggers (`StateTrigger` in the source). -/
inductive StateTrigger
  | hotkey_press
  | hotkey_release
  | transcription_complete
  | insertion_complete
  | error
  | reset
deriving DecidableEq

/-- The transition table `VALID_TRANSITIONS` of the state-machine module:
a partial map from (state, trigger) to the next state. -/
def VALID_TRANSITIONS : RecordingState → StateTrigger → Option RecordingState
  | .idle, .hotkey_press => some .recording
  | .recording, .hotkey_release => some .processing
  | .recording, .error => some .idle
  | .processing, .transcription_complete => some .inserting
  | .processing, .error => some .idle
  | .inserting, .insertion_complete => some .idle
  | .inserting, .error => some .idle
  | .error, .reset => some .idle
  | _, _ => none

/-- The mutable fields of `RecordingStateMachine`: `_currentState`,
`_recordingStartTime` (a millisecond timestamp or `null`) and the
constructor argument `_minRecordingDuration` (default 200). -/
structure RecordingStateMachine where
  currentState : RecordingState
  recordingStartTime : Option Nat
  minRecordingDuration : Nat
deriving DecidableEq

/-- A freshly constructed machine: `new RecordingStateMachine(minDur)`. -/
def mkMachine (minDur : Nat) : RecordingStateMachine :=
  ⟨.idle, none, minDur⟩

/-- The machine obtained from the default constructor argument (200 ms). -/
def initialMachine : RecordingStateMachine := mkMachine 200

/-- One `stateChange` event: the source emits
`emit('stateChange', newState, previousState)`. -/
structure StateChangeEvent where
  state : RecordingState
  previousState : RecordingState
deriving DecidableEq

/-- `getRecordingDuration()`: zero when the stored timestamp is falsy
(`null` or `0`), otherwise `Date.now() - startTime`. -/
def RecordingStateMachine.getRecordingDuration
    (m : RecordingStateMachine) (now : Nat) : Int :=
  match m.recordingStartTime with
  | none => 0
  | some t => if t = 0 then 0 else (now : Int) - (t : Int)

/-- The outcome of one `transition` call: the returned boolean, the
machine after the call and the `stateChange` events emitted during it. -/
structure TransitionResult where
  returned : Bool
  machine : RecordingStateMachine
  emitted : List StateChangeEvent
deriving DecidableEq

/-- The tail of `transition` after the guards (the commit): save the
previous state, move to `nextState`, clear the start time when returning
to `idle`, emit `stateChange(nextState, previousState)`, return true. -/
def commitTransition (nextState : RecordingState)
    (m : RecordingStateMachine) : TransitionResult :=
  ⟨true,
   { m with
      currentState := nextState,
      recordingStartTime :=
        if nextState = .idle then none else m.recordingStartTime },
   [⟨nextState, m.currentState⟩]⟩

/-- `RecordingStateMachine.transition(trigger)`, with `now` standing for
`Date.now()`.  Looks up the table; on a miss returns false with no side
effect.  On a hit: `hotkey_press -> recording` records the start time;
`hotkey_release` while `recording` applies the minimum-duration guard,
short-circuiting to `idle` (emitting the event, returning false) when the
recording is too short; otherwise the transition commits. -/
def RecordingStateMachine.transition (m : RecordingStateMachine)
    (trigger : StateTrigger) (now : Nat) : TransitionResult :=
  match VALID_TRANSITIONS m.currentState trigger with
  | none => ⟨false, m, []⟩
  | some nextState =>
    let m1 : RecordingStateMachine :=
      if trigger = .hotkey_press ∧ nextState = .recording then
        { m with recordingStartTime := some now }
      else m
    if trigger = .hotkey_release ∧ m1.currentState = .recording then
      if m1.getRecordingDuration now < (m1.minRecordingDuration : Int) then
        ⟨false,
         { m1 with currentState := .idle, recordingStartTime := none },
         [⟨.idle, m1.currentState⟩]⟩
      else
        commitTransition nextState m1
    else
      commitTransition nextState m1

/-- `RecordingStateMachine.reset()`: force `idle`, clear the start time,
emit `stateChange('idle', previousState)` only when the previous state was
not already `idle`. -/
def RecordingStateMachine.reset (m : RecordingStateMachine) :
    RecordingStateMachine × List StateChangeEvent :=
  let m1 : RecordingStateMachine :=
    { m with currentState := .idle, recordingStartTime := none }
  if m.currentState ≠ .idle then (m1, [⟨.idle, m.currentState⟩]) else (m1, [])

/-- `canTransition(trigger)`: a pure table lookup. -/
def RecordingStateMachine.canTransition (m : RecordingStateMachine)
    (trigger : StateTrigger) : Bool :=
  (VALID_TRANSITIONS m.currentState trigger).isSome

/-- One externally observable call on the machine: either
`transition(trigger)` executed at time `now`, or `reset()`. -/
inductive MachineCall
  | callTransition (now : Nat) (trigger : StateTrigger)
  | callReset
deriving DecidableEq

/-- Apply one call, keeping only the machine. -/
def applyCall (c : MachineCall) (m : RecordingStateMachine) :
    RecordingStateMachine :=
  match c with
  | .callTransition now t => (m.transition t now).machine
  | .callReset => m.reset.1

/-- Replay a finite sequence of calls. -/
def runCalls (cs : List MachineCall) (m : RecordingStateMachine) :
    RecordingStateMachine :=
  cs.foldl (fun acc c => applyCall c acc) m

/-- C1: for every (state, trigger) pair absent from the transition table,
`transition` returns false, leaves the machine (state and start time)
unchanged and emits no `stateChange` event. -/
theorem invalid_pair_rejected (now : Nat) (t : StateTrigger)
    (m : RecordingStateMachine)
    (h : VALID_TRANSITIONS m.currentState t = none) :
    m.transition t now = ⟨false, m, []⟩ := by
  simp [RecordingStateMachine.transition, h]

theorem invalid_pair_rejected_witness :
    VALID_TRANSITIONS initialMachine.currentState .transcription_complete
        = none ∧
    initialMachine.transition .transcription_complete 5
        = ⟨false, initialMachine, []⟩ :=
  ⟨by decide,
   invalid_pair_rejected 5 .transcription_complete initialMachine (by decide)⟩

/-- C2: `hotkey_release` while `recording`, with the press timestamp `t0`
stored (positive, as any real `Date.now()` value is, and no later than the
release time `now`): when the elapsed time `now - t0` is strictly below
`minRecordingDuration` the call returns false, yet the state becomes
`idle`, the start time is cleared and a `stateChange('idle', 'recording')`
event is emitted; when the elapsed time reaches `minRecordingDuration` the
call returns true, the state becomes `processing` (the start time is
kept), and `stateChange('processing', 'recording')` is emitted. -/
theorem hotkey_release_min_duration_guard (now t0 : Nat)
    (m : RecordingStateMachine)
    (hs : m.currentState = .recording)
    (ht : m.recordingStartTime = some t0)
    (hpos : 0 < t0) (hle : t0 ≤ now) :
    (now - t0 < m.minRecordingDuration →
       m.transition .hotkey_release now =
         ⟨false,
          { m with currentState := .idle, recordingStartTime := none },
          [⟨.idle, .recording⟩]⟩) ∧
    (m.minRecordingDuration ≤ now - t0 →
       m.transition .hotkey_release now =
         ⟨true,
          { m with currentState := .processing },
          [⟨.processing, .recording⟩]⟩) := by
  obtain ⟨cs, rst, md⟩ := m
  simp only at hs ht
  subst hs ht
  have hdur : RecordingStateMachine.getRecordingDuration
      ⟨.recording, some t0, md⟩ now = ((now : Int) - (t0 : Int)) := by
    simp [RecordingStateMachine.getRecordingDuration, Nat.pos_iff_ne_zero.mp hpos]
  constructor
  · intro hshort
    have hshort2 : now - t0 < md := hshort
    have hc : ((now : Int) - (t0 : Int) < (md : Int)) := by omega
    simp [RecordingStateMachine.transition, VALID_TRANSITIONS, hdur, hc]
  · intro hlong
    have hlong2 : md ≤ now - t0 := hlong
    have hc : ¬ ((now : Int) - (t0 : Int) < (md : Int)) := by omega
    simp [RecordingStateMachine.transition, VALID_TRANSITIONS, hdur, hc,
      commitTransition]

theorem hotkey_release_min_duration_guard_witness :
    (⟨.recording, some 100, 200⟩ : RecordingStateMachine).transition
        .hotkey_release 150
      = ⟨false, ⟨.idle, none, 200⟩, [⟨.idle, .recording⟩]⟩ ∧
    (⟨.recording, some 100, 200⟩ : RecordingStateMachine).transition
        .hotkey_release 400
      = ⟨true, ⟨.processing, some 100, 200⟩, [⟨.processing, .recording⟩]⟩ :=
  ⟨(hotkey_release_min_duration_guard 150 100 ⟨.recording, some 100, 200⟩
      rfl rfl (by decide) (by decide)).1 (by decide),
   (hotkey_release_min_duration_guard 400 100 ⟨.recording, some 100, 200⟩
      rfl rfl (by decide) (by decide)).2 (by decide)⟩

/-- C6: `reset()` unconditionally forces `idle` and clears the start time,
emitting `stateChange('idle', previousState)` exactly when the previous
state was not already `idle`; in particular a second consecutive `reset()`
emits nothing. -/
theorem reset_forces_idle (m : RecordingStateMachine) :
    m.reset = (⟨.idle, none, m.minRecordingDuration⟩,
      if m.currentState = .idle then [] else [⟨.idle, m.currentState⟩]) ∧
    m.reset.1.reset.2 = [] := by
  obtain ⟨cs, rst, md⟩ := m
  cases cs <;> simp [RecordingStateMachine.reset]

lemma runCalls_cons (c : MachineCall) (cs : List MachineCall)
    (m : RecordingStateMachine) :
    runCalls (c :: cs) m = runCalls cs (applyCall c m) := rfl

lemma applyCall_not_error (c : MachineCall) (m : RecordingStateMachine)
    (h : m.currentState ≠ .error) :
    (applyCall c m).currentState ≠ .error := by
  obtain ⟨cs, rst, md⟩ := m
  cases c with
  | callReset =>
    simp only [applyCall, RecordingStateMachine.reset]
    split_ifs <;> simp
  | callTransition now t =>
    cases cs <;> cases t <;>
      simp_all [applyCall, RecordingStateMachine.transition,
        VALID_TRANSITIONS, commitTransition] <;>
      split_ifs <;> simp

lemma runCalls_not_error (cs : List MachineCall) (m : RecordingStateMachine)
    (h : m.currentState ≠ .error) :
    (runCalls cs m).currentState ≠ .error := by
  induction cs generalizing m with
  | nil => exact h
  | cons c rest ih =>
    rw [runCalls_cons]
    exact ih _ (applyCall_not_error c m h)

lemma applyCall_idle_clears (c : MachineCall) (m : RecordingStateMachine)
    (h : m.currentState = .idle → m.recordingStartTime = none) :
    (applyCall c m).currentState = .idle →
      (applyCall c m).recordingStartTime = none := by
  obtain ⟨cs, rst, md⟩ := m
  cases c with
  | callReset =>
    simp only [applyCall, RecordingStateMachine.reset]
    split_ifs <;> simp
  | callTransition now t =>
    cases cs <;> cases t <;>
      simp_all [applyCall, RecordingStateMachine.transition,
        VALID_TRANSITIONS, commitTransition] <;>
      split_ifs <;> simp_all

lemma runCalls_idle_clears (cs : List MachineCall)
    (m : RecordingStateMachine)
    (h : m.currentState = .idle → m.recordingStartTime = none) :
    (runCalls cs m).currentState = .idle →
      (runCalls cs m).recordingStartTime = none := by
  induction cs generalizing m with
  | nil => exact h
  | cons c rest ih =>
    rw [runCalls_cons]
    exact ih _ (applyCall_idle_clears c m h)

/-- The trace for the C7 counterexample: a hotkey press at 100 ms followed
by a hotkey release at 400 ms (a 300 ms recording, above the 200 ms
minimum). -/
def sessionTrace : List MachineCall :=
  [.callTransition 100 .hotkey_press, .callTransition 400 .hotkey_release]

/-- C7 counterexample: after a press at 100 ms and a release at 400 ms the
machine is in `processing` (so not in `recording`), yet
`getRecordingDuration()` evaluated at 450 ms returns 350, not 0: the start
time is kept until the machine returns to `idle`. -/
theorem duration_nonzero_in_processing :
    (runCalls sessionTrace initialMachine).currentState = .processing ∧
    (runCalls sessionTrace initialMachine).getRecordingDuration 450 = 350
      := by decide

/-- C7 amended: in every reachable configuration whose state is `idle` the
start time has been cleared, so `getRecordingDuration()` returns 0 there;
the start time is cleared only when the machine returns to `idle`, so in
`processing` and `inserting` it is retained. -/
theorem duration_zero_in_idle (cs : List MachineCall) (minDur now : Nat)
    (h : (runCalls cs (mkMachine minDur)).currentState = .idle) :
    (runCalls cs (mkMachine minDur)).getRecordingDuration now = 0 := by
  have hinv := runCalls_idle_clears cs (mkMachine minDur)
    (by simp [mkMachine])
  simp [RecordingStateMachine.getRecordingDuration, hinv h]

theorem duration_zero_in_idle_witness :
    (runCalls [.callTransition 100 .hotkey_press, .callReset]
        (mkMachine 200)).currentState = .idle ∧
    (runCalls [.callTransition 100 .hotkey_press, .callReset]
        (mkMachine 200)).getRecordingDuration 500 = 0 :=
  ⟨by decide,
   duration_zero_in_idle [.callTransition 100 .hotkey_press, .callReset]
     200 500 (by decide)⟩

/-- C10: no entry of the transition table maps to `error`, and for every
finite sequence of `transition()` and `reset()` calls starting from a
fresh machine (state `idle`), the current state is never `error`. -/
theorem error_state_unreachable :
    (∀ s t, VALID_TRANSITIONS s t ≠ some .error) ∧
    ∀ (cs : List MachineCall) (minDur : Nat),
      (runCalls cs (mkMachine minDur)).currentState ≠ .error := by
  constructor
  · intro s t
    cases s <;> cases t <;> simp [VALID_TRANSITIONS]
  · intro cs minDur
    exact runCalls_not_error cs _ (by simp [mkMachine])

theorem error_state_unreachable_witness :
    (runCalls [.callTransition 1 .hotkey_press,
        .callTransition 400 .hotkey_release]
          (mkMachine 200)).currentState = .processing ∧
    (runCalls [.callTransition 1 .hotkey_press,
        .callTransition 400 .hotkey_release] (mkMachine 200)).currentState
      ≠ .error :=
  ⟨by decide,
   error_state_unreachable.2
     [.callTransition 1 .hotkey_press, .callTransition 400 .hotkey_release]
     200⟩

/-! ## Orchestrator (src/orchestrator.ts)

The orchestrator's handlers are embedded as pure functions from the state
machine to the machine after the handler ran, paired with the list of side
effects the handler performed, in order.  External outcomes (the insertion
result, the configured insertion method) are explicit parameters. -/

/-- The widget status values pushed by `updateAllWidgets`. -/
inductive WidgetState
  | idle
  | recording
  | processing
  | success
  | error
deriving DecidableEq

/-- The persisted insertion method (config-service). -/
inductive InsertionMethod
  | paste
  | clipboard_only
deriving DecidableEq

/-- One observable side effect of an orchestrator handler. -/
inductive Effect
  | updateAllWidgets (w : WidgetState)
  | startRecordingInRenderer
  | stopRecordingInRenderer
  | resetRendererRecordingState
  | clearProcessingTimeout
  | armProcessingTimeout
  | armFeedbackTimeout (ms : Nat)
  | captureActiveApp
  | insertText
  | copyToClipboardOnly
deriving DecidableEq

/-- The `stateChange` listener installed by `setupStateMachineListeners`
(orchestrator.ts lines 144-196): the effects performed in reaction to a
`stateChange(state, previousState)` event.  Transitions into `idle` from
`inserting` or `processing` skip the automatic `idle` widget push. -/
def onStateChange (state previousState : RecordingState) : List Effect :=
  match state with
  | .recording =>
      [.updateAllWidgets .recording, .startRecordingInRenderer]
  | .processing =>
      [.updateAllWidgets .processing, .stopRecordingInRenderer,
       .clearProcessingTimeout, .armProcessingTimeout]
  | .inserting =>
      [.clearProcessingTimeout]
  | .idle =>
      [.clearProcessingTimeout]
      ++ (if previousState ≠ .idle
          then [.resetRendererRecordingState] else [])
      ++ (if previousState ≠ .inserting ∧ previousState ≠ .processing
          then [.updateAllWidgets .idle] else [])
  | .error =>
      [.clearProcessingTimeout, .updateAllWidgets .error]

/-- Submit a trigger to the machine and run the `stateChange` listener on
every event the call emitted. -/
def submitTrigger (m : RecordingStateMachine) (t : StateTrigger)
    (now : Nat) : Bool × RecordingStateMachine × List Effect :=
  let r := m.transition t now
  (r.returned, r.machine,
   (r.emitted.map fun e => onStateChange e.state e.previousState).flatten)

/-- Call `reset()` on the machine and run the `stateChange` listener on
every event it emitted. -/
def resetViaListener (m : RecordingStateMachine) :
    RecordingStateMachine × List Effect :=
  let r := m.reset
  (r.1, (r.2.map fun e => onStateChange e.state e.previousState).flatten)

/-- The hardware hotkey press handler (orchestrator.ts lines 208-231):
`idle` captures the foreground app then submits `hotkey_press`;
`recording` submits `hotkey_release` (toggle); `error` resets, captures
the app and submits `hotkey_press`; other states ignore the press. -/
def hotkeyPressHandler (m : RecordingStateMachine) (now : Nat) :
    RecordingStateMachine × List Effect :=
  if m.currentState = .idle then
    let r := submitTrigger m .hotkey_press now
    (r.2.1, [.captureActiveApp] ++ r.2.2)
  else if m.currentState = .recording then
    let r := submitTrigger m .hotkey_release now
    (r.2.1, r.2.2)
  else if m.currentState = .error then
    let r0 := resetViaListener m
    let r := submitTrigger r0.1 .hotkey_press now
    (r.2.1, r0.2 ++ [.captureActiveApp] ++ r.2.2)
  else
    (m, [])

/-- The `widget-toggle-recording` IPC handler (orchestrator.ts lines
246-259): `idle` captures the app then submits `hotkey_press`;
`recording` submits `hotkey_release`; every other state only logs that
the click was ignored. -/
def widgetToggleHandler (m : RecordingStateMachine) (now : Nat) :
    RecordingStateMachine × List Effect :=
  if m.currentState = .idle then
    let r := submitTrigger m .hotkey_press now
    (r.2.1, [.captureActiveApp] ++ r.2.2)
  else if m.currentState = .recording then
    let r := submitTrigger m .hotkey_release now
    (r.2.1, r.2.2)
  else
    (m, [])

/-- The `transcription-complete` IPC handler (orchestrator.ts lines
262-296).  `insertOk` is the success flag of the external insertion or
clipboard call. -/
def transcriptionCompleteHandler (m : RecordingStateMachine) (now : Nat)
    (method : InsertionMethod) (insertOk : Bool) :
    RecordingStateMachine × List Effect :=
  if m.currentState = .processing then
    let r := submitTrigger m .transcription_complete now
    let deliver : List Effect :=
      match method with
      | .clipboard_only => [.copyToClipboardOnly]
      | .paste => [.insertText]
    let feedback : List Effect :=
      if insertOk then [.updateAllWidgets .success]
      else [.updateAllWidgets .error]
    (r.2.1, r.2.2 ++ deliver ++ feedback ++ [.armFeedbackTimeout 2000])
  else
    (m, [])

/-- The synchronous part of the `transcription-error` IPC handler
(orchestrator.ts lines 299-312): push `error` to the widgets immediately
and arm the 3 s deferred timer, with no state guard. -/
def transcriptionErrorImmediate : List Effect :=
  [.updateAllWidgets .error, .armFeedbackTimeout 3000]

/-- The callback of the 3 s deferred timer armed by the
`transcription-error` handler (orchestrator.ts lines 306-311): only if
the machine is still `processing` does it push `idle` to the widgets and
submit the `error` trigger. -/
def transcriptionErrorTimerFire (m : RecordingStateMachine) (now : Nat) :
    RecordingStateMachine × List Effect :=
  if m.currentState = .processing then
    let r := submitTrigger m .error now
    (r.2.1, [.updateAllWidgets .idle] ++ r.2.2)
  else
    (m, [])

/-- The processing watchdog callback (orchestrator.ts lines 158-169,
30 s): if still `processing`, push `error` to the widgets and arm the
second (3 s) timer. -/
def processingWatchdogFire (m : RecordingStateMachine) : List Effect :=
  if m.currentState = .processing then
    [.updateAllWidgets .error, .armFeedbackTimeout 3000]
  else []

/-- The callback of the watchdog's second (3 s) timer (orchestrator.ts
lines 162-167): only if still `processing`, push `idle` to the widgets
and submit the `error` trigger. -/
def processingWatchdogSecondFire (m : RecordingStateMachine) (now : Nat) :
    RecordingStateMachine × List Effect :=
  if m.currentState = .processing then
    let r := submitTrigger m .error now
    (r.2.1, [.updateAllWidgets .idle] ++ r.2.2)
  else
    (m, [])

/-- Number of `idle` pushes to the widgets in an effect list. -/
def countIdlePushes (effs : List Effect) : Nat :=
  effs.count (Effect.updateAllWidgets .idle)

/-- C3: the `transcription-complete` handler acts only when the machine is
in `processing` when the event arrives: it then moves the machine to
`inserting`, performs the configured delivery (paste or clipboard-only),
pushes `success` or `error` to the widgets according to the insertion
outcome, and arms the 2 s feedback timer; in any other state the
completion is dropped with no transition attempt, no insertion, no widget
push and no timer. -/
theorem transcription_complete_gated (m : RecordingStateMachine)
    (now : Nat) (method : InsertionMethod) (insertOk : Bool) :
    (m.currentState = .processing →
       (transcriptionCompleteHandler m now method insertOk).1.currentState
           = .inserting ∧
       (transcriptionCompleteHandler m now method insertOk).2 =
         onStateChange .inserting .processing
           ++ (match method with
               | .clipboard_only => [Effect.copyToClipboardOnly]
               | .paste => [Effect.insertText])
           ++ [Effect.updateAllWidgets
                 (if insertOk then .success else .error)]
           ++ [Effect.armFeedbackTimeout 2000]) ∧
    (m.currentState ≠ .processing →
       transcriptionCompleteHandler m now method insertOk = (m, [])) := by
  obtain ⟨cs, rst, md⟩ := m
  constructor
  · intro h
    have h2 : cs = .processing := h
    subst h2
    cases method <;> cases insertOk <;>
      simp [transcriptionCompleteHandler, submitTrigger,
        RecordingStateMachine.transition, VALID_TRANSITIONS,
        commitTransition, onStateChange]
  · intro h
    simp [transcriptionCompleteHandler, h]

theorem transcription_complete_gated_witness :
    (transcriptionCompleteHandler ⟨.processing, some 100, 200⟩ 500
        .paste true).1.currentState = .inserting ∧
    transcriptionCompleteHandler ⟨.idle, none, 200⟩ 500 .paste true
        = (⟨.idle, none, 200⟩, []) :=
  ⟨((transcription_complete_gated ⟨.processing, some 100, 200⟩ 500
       .paste true).1 rfl).1,
   (transcription_complete_gated ⟨.idle, none, 200⟩ 500 .paste true).2
     (by decide)⟩

/-- C4: the 3 s deferred timer armed by the `transcription-error` handler
re-checks the state at fire time: if the machine has left `processing`
before the timer fires, the callback does nothing at all (no widget push,
no trigger submitted); if the machine is still `processing`, it pushes
`idle` to the widgets and submits the `error` trigger, driving the machine
to `idle`. -/
theorem deferred_error_timer_guarded (m : RecordingStateMachine)
    (now : Nat) :
    (m.currentState ≠ .processing →
       transcriptionErrorTimerFire m now = (m, [])) ∧
    (m.currentState = .processing →
       transcriptionErrorTimerFire m now =
         ({ m with currentState := .idle, recordingStartTime := none },
          [Effect.updateAllWidgets .idle]
            ++ onStateChange .idle .processing)) := by
  obtain ⟨cs, rst, md⟩ := m
  constructor
  · intro h
    simp [transcriptionErrorTimerFire, h]
  · intro h
    have h2 : cs = .processing := h
    subst h2
    simp [transcriptionErrorTimerFire, submitTrigger,
      RecordingStateMachine.transition, VALID_TRANSITIONS,
      commitTransition, onStateChange]

theorem deferred_error_timer_guarded_witness :
    transcriptionErrorTimerFire ⟨.inserting, some 100, 200⟩ 9
        = (⟨.inserting, some 100, 200⟩, []) ∧
    transcriptionErrorTimerFire ⟨.processing, some 100, 200⟩ 9
        = (⟨.idle, none, 200⟩,
           [Effect.updateAllWidgets .idle]
             ++ onStateChange .idle .processing) :=
  ⟨(deferred_error_timer_guarded ⟨.inserting, some 100, 200⟩ 9).1
     (by decide),
   (deferred_error_timer_guarded ⟨.processing, some 100, 200⟩ 9).2 rfl⟩

/-- C5: when the watchdog's second (3 s) timer fires while the machine is
still `processing`, the complete effect trace of that path — the timer's
own `idle` push plus the listener reaction to the resulting
`stateChange('idle', 'processing')` — contains exactly one `idle` widget
push; the generic listener suppresses the automatic `idle` push when the
previous state is `processing` or `inserting`, and performs exactly one
`idle` push on a `stateChange` into `idle` from any other non-idle
previous state. -/
theorem watchdog_single_idle_push (m : RecordingStateMachine)
    (now : Nat) :
    (m.currentState = .processing →
       countIdlePushes (processingWatchdogSecondFire m now).2 = 1) ∧
    countIdlePushes (onStateChange .idle .processing) = 0 ∧
    countIdlePushes (onStateChange .idle .inserting) = 0 ∧
    (∀ prev, prev ≠ .idle → prev ≠ .processing → prev ≠ .inserting →
       countIdlePushes (onStateChange .idle prev) = 1) := by
  obtain ⟨cs, rst, md⟩ := m
  refine ⟨?_, by decide, by decide, ?_⟩
  · intro h
    have h2 : cs = .processing := h
    subst h2
    simp [processingWatchdogSecondFire, submitTrigger,
      RecordingStateMachine.transition, VALID_TRANSITIONS,
      commitTransition, onStateChange, countIdlePushes]
  · intro prev h1 h2 h3
    cases prev <;> simp_all <;> decide

theorem watchdog_single_idle_push_witness :
    countIdlePushes
        (processingWatchdogSecondFire ⟨.processing, some 100, 200⟩ 9).2
      = 1 ∧
    countIdlePushes (onStateChange .idle .recording) = 1 :=
  ⟨(watchdog_single_idle_push ⟨.processing, some 100, 200⟩ 9).1 rfl,
   (watchdog_single_idle_push ⟨.processing, some 100, 200⟩ 9).2.2.2
     .recording (by decide) (by decide) (by decide)⟩

/-- The machine sitting in the `error` state used to separate the
widget-toggle handler from the hotkey-press handler. -/
def errorStateMachine : RecordingStateMachine := ⟨.error, none, 200⟩

/-- C8 counterexample: with the machine in `error`, the in-app widget
toggle is ignored outright (machine unchanged, no effect at all), while a
hardware hotkey press resets the machine, captures the foreground app and
submits `hotkey_press`, ending in `recording`: the two signals are not
handled identically. -/
theorem widget_toggle_ignores_error :
    widgetToggleHandler errorStateMachine 7 = (errorStateMachine, []) ∧
    (hotkeyPressHandler errorStateMachine 7).1.currentState
        = .recording ∧
    Effect.captureActiveApp ∈ (hotkeyPressHandler errorStateMachine 7).2
      := by decide

/-- C8 amended: the widget toggle matches the hardware hotkey press
exactly in the `idle` and `recording` states; in every other state —
`error` included — the widget toggle is ignored entirely (no reset, no
app capture, no transition attempt), unlike the hotkey's `error` branch
which resets and restarts. -/
theorem widget_toggle_vs_hotkey (m : RecordingStateMachine) (now : Nat) :
    (m.currentState = .idle ∨ m.currentState = .recording →
       widgetToggleHandler m now = hotkeyPressHandler m now) ∧
    (m.currentState ≠ .idle → m.currentState ≠ .recording →
       widgetToggleHandler m now = (m, [])) := by
  constructor
  · rintro (h | h) <;> simp [widgetToggleHandler, hotkeyPressHandler, h]
  · intro h1 h2
    simp [widgetToggleHandler, h1, h2]

theorem widget_toggle_vs_hotkey_witness :
    widgetToggleHandler ⟨.idle, none, 200⟩ 3
        = hotkeyPressHandler ⟨.idle, none, 200⟩ 3 ∧
    widgetToggleHandler ⟨.processing, none, 200⟩ 3
        = (⟨.processing, none, 200⟩, []) :=
  ⟨(widget_toggle_vs_hotkey ⟨.idle, none, 200⟩ 3).1 (Or.inl rfl),
   (widget_toggle_vs_hotkey ⟨.processing, none, 200⟩ 3).2 (by decide)
     (by decide)⟩

/-! ## Global hotkey service (src/hotkey-service.ts)

`register`/`unregister` are embedded as pure functions over the service's
mutable fields, returning the list of externally visible actions (OS
shortcut registration and unregistration, low-level listener start and
teardown, error events) in the order they happen.  The outcome of the OS
registration attempt — success, failure, or a thrown exception inside the
try block — is an explicit parameter. -/

/-- Persisted hotkey configuration. -/
structure HotkeyConfig where
  accelerator : String
  enabled : Bool
deriving DecidableEq

/-- `DEFAULT_HOTKEY` from the source. -/
def DEFAULT_HOTKEY : HotkeyConfig := ⟨"Fn", true⟩

/-- The service's mutable fields that `register`/`unregister` touch. -/
structure GlobalHotkeyService where
  config : HotkeyConfig
  isRegistered : Bool
deriving DecidableEq

/-- The whitespace `trim()` strips at either end, restricted to the
ASCII whitespace that can occur in an accelerator string. -/
def isSpaceChar (c : Char) : Bool :=
  c = ' ' ∨ c = '\t' ∨ c = '\n' ∨ c = '\r'

/-- `accelerator.trim()`, on the character list. -/
def trimChars (l : List Char) : List Char :=
  ((l.dropWhile isSpaceChar).reverse.dropWhile isSpaceChar).reverse

/-- `isFnAccelerator`: `accelerator.trim().toLowerCase() === 'fn'`,
with `toLowerCase` acting per character (accelerator strings are
ASCII). -/
def isFnAccelerator (accelerator : String) : Bool :=
  (trimChars accelerator.data).map Char.toLower = ['f', 'n']

/-- One externally visible action of the hotkey service. -/
inductive HotkeyAction
  | keyspyTeardown
  | osUnregister (accelerator : String)
  | keyspyStart
  | osRegisterAttempt (accelerator : String)
  | emitErrorEvent
deriving DecidableEq

/-- How the registration attempt inside the try block turns out:
the OS accepts the shortcut, the OS declines it, or the call throws. -/
inductive OsRegisterOutcome
  | success
  | failure
  | thrown
deriving DecidableEq

/-- `GlobalHotkeyService.unregister()` (hotkey-service.ts lines 107-129):
tear down whichever mechanism is active — the low-level listener for the
Fn accelerator, the OS global shortcut otherwise — but only when a
binding is registered and the accelerator string is truthy (non-empty);
always clear the registered flag. -/
def unregister (s : GlobalHotkeyService) :
    GlobalHotkeyService × List HotkeyAction :=
  let actions : List HotkeyAction :=
    if s.isRegistered = true ∧ s.config.accelerator ≠ "" then
      if isFnAccelerator s.config.accelerator then [.keyspyTeardown]
      else [.osUnregister s.config.accelerator]
    else []
  ({ s with isRegistered := false }, actions)

/-- `GlobalHotkeyService.register(config)` (hotkey-service.ts lines
59-102): overwrite the stored config if one is passed; bail out returning
false when the (new) config is disabled; otherwise unregister first, then
register the Fn listener or the OS shortcut.  A thrown exception (inside
the try block, i.e. after the unregister) and an OS refusal both emit an
error event and return false. -/
def register (cfg : Option HotkeyConfig) (osOutcome : OsRegisterOutcome)
    (s : GlobalHotkeyService) :
    Bool × GlobalHotkeyService × List HotkeyAction :=
  let s0 : GlobalHotkeyService :=
    match cfg with
    | some c => { s with config := c }
    | none => s
  if s0.config.enabled = false then
    (false, s0, [])
  else
    let r := unregister s0
    let s1 := r.1
    match osOutcome with
    | .thrown => (false, s1, r.2 ++ [.emitErrorEvent])
    | .success =>
      if isFnAccelerator s1.config.accelerator then
        (true, { s1 with isRegistered := true }, r.2 ++ [.keyspyStart])
      else
        (true, { s1 with isRegistered := true },
         r.2 ++ [.osRegisterAttempt s1.config.accelerator])
    | .failure =>
      if isFnAccelerator s1.config.accelerator then
        (true, { s1 with isRegistered := true }, r.2 ++ [.keyspyStart])
      else
        (false, s1,
         r.2 ++ [.osRegisterAttempt s1.config.accelerator,
                 .emitErrorEvent])

/-- A service holding a live F13 binding. -/
def liveF13Service : GlobalHotkeyService := ⟨⟨"F13", true⟩, true⟩

/-- A service holding a live Fn binding, i.e. an attached keyspy
listener. -/
def liveFnService : GlobalHotkeyService := ⟨⟨"Fn", true⟩, true⟩

/-- C9 counterexample: two concrete `register` calls that leave the
existing live binding in place.  (i) With a live F13 binding, a new
disabled configuration makes `register` return false with no action at
all — the enabled check sits before the `unregister()` call — and the
registered flag still set.  (ii) With a live Fn binding (an attached
keyspy listener), `register({accelerator:'F13', enabled:true})`
overwrites the stored config before calling `unregister()`, so the
teardown is keyed to the NEW accelerator: the trace is exactly
`globalShortcut.unregister('F13')` (a no-op for the keyspy listener)
followed by the F13 registration, contains no keyspy teardown, and the
call returns true — the old low-level listener stays live alongside the
new binding. -/
theorem register_misses_existing_binding :
    register (some ⟨"Shift+Z", false⟩) .success liveF13Service
        = (false, ⟨⟨"Shift+Z", false⟩, true⟩, []) ∧
    register (some ⟨"F13", true⟩) .success liveFnService
        = (true, ⟨⟨"F13", true⟩, true⟩,
           [.osUnregister "F13", .osRegisterAttempt "F13"]) ∧
    HotkeyAction.keyspyTeardown ∉
      (register (some ⟨"F13", true⟩) .success liveFnService).2.2 := by
  decide

/-- C9 amended: `register(config)` first overwrites the stored
configuration.  A call whose new configuration is enabled does invoke
`unregister()` before any registration attempt on every path — also when
it returns false because the OS declines the shortcut or the attempt
throws — but that teardown is keyed to the NEWLY stored accelerator, not
to the one the live binding was created with: when a binding is live and
the new accelerator is non-empty, the action emitted is the keyspy
teardown if the new accelerator is Fn and `globalShortcut.unregister` of
the new accelerator otherwise, so the existing binding is actually
removed only when the old accelerator matches it (in particular when the
accelerator is unchanged).  A call whose new configuration is disabled
returns false immediately, emits no action, and leaves the previous
registration flag (and any live binding) intact. -/
theorem register_teardown_keyed_to_new_config (c : HotkeyConfig)
    (osOutcome : OsRegisterOutcome) (s : GlobalHotkeyService) :
    (c.enabled = true →
       ∃ rest,
         (register (some c) osOutcome s).2.2
             = (unregister { s with config := c }).2 ++ rest ∧
         ∀ a ∈ rest, a ≠ HotkeyAction.keyspyTeardown ∧
           ∀ acc, a ≠ HotkeyAction.osUnregister acc) ∧
    (s.isRegistered = true → c.accelerator ≠ "" →
       (unregister { s with config := c }).2
         = (if isFnAccelerator c.accelerator
            then [HotkeyAction.keyspyTeardown]
            else [HotkeyAction.osUnregister c.accelerator])) ∧
    (c.enabled = false →
       register (some c) osOutcome s
         = (false, { s with config := c }, [])) := by
  refine ⟨?_, ?_, ?_⟩
  · intro h
    have hacc : (unregister { s with config := c }).1.config.accelerator
        = c.accelerator := rfl
    cases osOutcome with
    | thrown =>
      exact ⟨[HotkeyAction.emitErrorEvent], by simp [register, h], by simp⟩
    | success =>
      cases hfn : isFnAccelerator c.accelerator with
      | true =>
        exact ⟨[HotkeyAction.keyspyStart],
          by simp [register, h, hacc, hfn], by simp⟩
      | false =>
        exact ⟨[HotkeyAction.osRegisterAttempt c.accelerator],
          by simp [register, h, hacc, hfn], by simp⟩
    | failure =>
      cases hfn : isFnAccelerator c.accelerator with
      | true =>
        exact ⟨[HotkeyAction.keyspyStart],
          by simp [register, h, hacc, hfn], by simp⟩
      | false =>
        exact ⟨[HotkeyAction.osRegisterAttempt c.accelerator,
                HotkeyAction.emitErrorEvent],
          by simp [register, h, hacc, hfn], by simp⟩
  · intro hreg hne
    simp [unregister, hreg, hne]
  · intro h
    simp [register, h]

theorem register_teardown_keyed_to_new_config_witness :
    (unregister { liveFnService with config := ⟨"F13", true⟩ }).2
        = [HotkeyAction.osUnregister "F13"] ∧
    register (some ⟨"Shift+Z", false⟩) .success liveF13Service
        = (false, ⟨⟨"Shift+Z", false⟩, true⟩, []) :=
  ⟨by
     rw [(register_teardown_keyed_to_new_config ⟨"F13", true⟩ .success
       liveFnService).2.1 rfl (by decide)]
     decide,
   (register_teardown_keyed_to_new_config ⟨"Shift+Z", false⟩ .success
     liveF13Service).2.2 rfl⟩

end Koe
